import Mathlib

/-!
Shallow embedding of the authenticated-request retry wrapper
(`fetchWithAuth` and its convenience helpers `getWithAuth`, `postWithAuth`,
`putWithAuth`, `deleteWithAuth`) from `utils/api` of the social-networking
application.  Network I/O, the Supabase session provider
(`auth.getSession`, `auth.refreshSession`, `auth.signOut`) and the `fetch`
transport are modelled as an explicit environment; the wrapper becomes a
total function from that environment to a result together with a trace of
the side effects it performed (network calls issued, refresh attempts,
sign-out calls).
-/

namespace Crow

/-- Header maps, as JavaScript object spread treats them: exact string keys
to string values.  `none` means the key is absent. -/
def Headers : Type := String → Option String

/-- Setting one key of a header object, later writes winning, mirroring a
later entry in a JS object literal overriding an earlier one. -/
def Headers.set (h : Headers) (k v : String) : Headers :=
  fun q => if q = k then some v else h q

/-- The empty header object (spread of `undefined` in JS yields no keys). -/
def Headers.empty : Headers := fun _ => none

/-- A Supabase session as seen by the wrapper: only its access token is
read. -/
structure Session where
  access_token : String
deriving DecidableEq

/-- Result shape of `supabase.auth.getSession()` / `refreshSession()`:
a `data.session` that may be absent and an `error` that may be set.  The
code only ever tests whether `error` is set, so it is a `Bool` here. -/
structure SessionRes where
  error : Bool
  session : Option Session
deriving DecidableEq

/-- An HTTP response; the wrapper inspects only its status code and
otherwise returns it untouched. -/
structure Response where
  status : Nat
deriving DecidableEq

/-- The options record passed to `fetchWithAuth` (the `RequestInit`):
a method, caller-supplied headers, and an optional already-serialized
body. -/
structure ReqOptions where
  method : Option String
  headers : Headers
  body : Option String

/-- One network call as issued by the wrapper: the `fetch(url, ...)`
arguments after header merging. -/
structure FetchCall where
  url : String
  method : Option String
  headers : Headers
  body : Option String

/-- The environment of one logical `fetchWithAuth` call: what the session
provider answers, what the transport answers on each attempt (index 0 is
the first attempt, index 1 the retry; `Except.error` is a transport-level
rejection), and whether `signOut()` succeeds. -/
structure Env where
  getSession : SessionRes
  fetch : Nat → FetchCall → Except Unit Response
  refreshSession : SessionRes
  signOut : Except Unit Unit

/-- The failure taxonomy of the wrapper.  `sessionUnavailable`,
`noCredential` and `sessionExpired` are the errors thrown by the code
itself; `networkError` is a transport rejection propagating through;
`providerError` is a rejection of `signOut()` propagating through. -/
inductive FetchError where
  | sessionUnavailable
  | noCredential
  | networkError
  | sessionExpired
  | providerError
deriving DecidableEq

/-- The observable side effects of one logical call: the network calls in
the order they were issued, how many refreshes were asked for, and how
many times `signOut()` was invoked. -/
structure Trace where
  fetchCalls : List FetchCall
  refreshCalls : Nat
  signOutCalls : Nat

/-- Header construction of the wrapper: spread the caller headers, then
write `Authorization: Bearer <token>`, then write
`Content-Type: application/json`; the injected keys therefore override any
caller entry of the same name. -/
def buildHeaders (caller : Headers) (token : String) : Headers :=
  (caller.set "Authorization" ("Bearer " ++ token)).set "Content-Type" "application/json"

/-- The arguments of one `fetch(url, \x7b ...options, headers \x7d)` call
as the wrapper assembles them for a given bearer token. -/
def mkCall (url : String) (options : ReqOptions) (token : String) : FetchCall :=
  ⟨url, options.method, buildHeaders options.headers token, options.body⟩

/-- The refresh-failure tail of the wrapper: `await supabase.auth.signOut()`
followed by `throw new Error('Session expired. ...')`.  The sign-out is
awaited first, so a rejection of `signOut()` propagates instead of the
`sessionExpired` failure. -/
def onRefreshFailure (env : Env) (c1 : FetchCall) : Except FetchError Response × Trace :=
  match env.signOut with
  | .error _ => (.error .providerError, ⟨[c1], 1, 1⟩)
  | .ok _ => (.error .sessionExpired, ⟨[c1], 1, 1⟩)

/-- The wrapper `fetchWithAuth(url, options)`: get the session (failing
with `sessionUnavailable` on a provider error and `noCredential` on a
missing or empty token), issue the request with merged headers, and on a
401 response refresh the session once, either failing through
`onRefreshFailure` or retrying exactly once with the refreshed token and
returning that second outcome as is. -/
def fetchWithAuth (env : Env) (url : String) (options : ReqOptions) :
    Except FetchError Response × Trace :=
  if env.getSession.error then
    (.error .sessionUnavailable, ⟨[], 0, 0⟩)
  else
    match env.getSession.session with
    | none => (.error .noCredential, ⟨[], 0, 0⟩)
    | some s =>
      if s.access_token = "" then
        (.error .noCredential, ⟨[], 0, 0⟩)
      else
        match env.fetch 0 (mkCall url options s.access_token) with
        | .error _ => (.error .networkError, ⟨[mkCall url options s.access_token], 0, 0⟩)
        | .ok r1 =>
          if r1.status = 401 then
            if env.refreshSession.error then
              onRefreshFailure env (mkCall url options s.access_token)
            else
              match env.refreshSession.session with
              | none => onRefreshFailure env (mkCall url options s.access_token)
              | some s2 =>
                match env.fetch 1 (mkCall url options s2.access_token) with
                | .error _ =>
                  (.error .networkError,
                    ⟨[mkCall url options s.access_token, mkCall url options s2.access_token], 1, 0⟩)
                | .ok r2 =>
                  (.ok r2,
                    ⟨[mkCall url options s.access_token, mkCall url options s2.access_token], 1, 0⟩)
          else
            (.ok r1, ⟨[mkCall url options s.access_token], 0, 0⟩)

/-- JSON values, the shape of the `any`-typed bodies the convenience
helpers accept (integers stand in for JS numbers). -/
inductive Json where
  | null
  | bool (b : Bool)
  | num (n : Int)
  | str (s : String)
  | arr (elems : List Json)
  | obj (fields : List (String × Json))

/-- JavaScript truthiness of a JSON value, as the `body ? ... : undefined`
conditional evaluates it: `null`, `false`, `0` and the empty string are
falsy, everything else (all arrays and objects included) is truthy. -/
def jsTruthy : Json → Bool
  | .null => false
  | .bool b => b
  | .num n => n != 0
  | .str s => s != ""
  | .arr _ => true
  | .obj _ => true

/-- Escaping of one character inside a JSON string literal. -/
def escChar (c : Char) : String :=
  if c = '"' then "\\\"" else if c = '\\' then "\\\\" else String.singleton c

/-- Escaping of a string for a JSON string literal. -/
def jsonEscape (s : String) : String := String.join (s.toList.map escChar)

mutual

/-- `JSON.stringify` on the modelled JSON values. -/
def stringify : Json → String
  | .null => "null"
  | .bool true => "true"
  | .bool false => "false"
  | .num n => toString n
  | .str s => "\"" ++ jsonEscape s ++ "\""
  | .arr xs => "[" ++ stringifyList xs ++ "]"
  | .obj fs => "\x7b" ++ stringifyObj fs ++ "\x7d"

/-- Comma-separated serialization of a JSON array's elements. -/
def stringifyList : List Json → String
  | [] => ""
  | [x] => stringify x
  | x :: y :: xs => stringify x ++ "," ++ stringifyList (y :: xs)

/-- Comma-separated serialization of a JSON object's fields. -/
def stringifyObj : List (String × Json) → String
  | [] => ""
  | [(k, v)] => "\"" ++ jsonEscape k ++ "\":" ++ stringify v
  | (k, v) :: f :: fs =>
    "\"" ++ jsonEscape k ++ "\":" ++ stringify v ++ "," ++ stringifyObj (f :: fs)

end

/-- Modelled from the spec: the Supabase project id imported from
`utils/supabase/info`, a module that is not part of the staged sources.  It
is an opaque deployment constant; no claim depends on its value. -/
def projectId : String := "project-id"

/-- The base URL the convenience helpers prepend to their `path`
argument. -/
def apiUrl (path : String) : String :=
  "https://" ++ projectId ++ ".supabase.co/functions/v1/make-server-b017b546" ++ path

/-- The header object literal the POST and PUT helpers pass as
`options.headers`. -/
def jsonCT : Headers := Headers.empty.set "Content-Type" "application/json"

/-- The body field the POST and PUT helpers compute:
`body ? JSON.stringify(body) : undefined`. -/
def encodeBody : Option Json → Option String
  | none => none
  | some b => if jsTruthy b then some (stringify b) else none

/-- `postWithAuth(path, body?)`. -/
def postWithAuth (env : Env) (path : String) (body : Option Json) :
    Except FetchError Response × Trace :=
  fetchWithAuth env (apiUrl path) ⟨some "POST", jsonCT, encodeBody body⟩

/-- `getWithAuth(path)` (no headers field in its options literal). -/
def getWithAuth (env : Env) (path : String) :
    Except FetchError Response × Trace :=
  fetchWithAuth env (apiUrl path) ⟨some "GET", Headers.empty, none⟩

/-- `deleteWithAuth(path)` (no headers field in its options literal). -/
def deleteWithAuth (env : Env) (path : String) :
    Except FetchError Response × Trace :=
  fetchWithAuth env (apiUrl path) ⟨some "DELETE", Headers.empty, none⟩

/-- `putWithAuth(path, body?)`. -/
def putWithAuth (env : Env) (path : String) (body : Option Json) :
    Except FetchError Response × Trace :=
  fetchWithAuth env (apiUrl path) ⟨some "PUT", jsonCT, encodeBody body⟩

/-- The claim's reading of the POST helper, stated from the spec's words:
the body is JSON-encoded whenever a body is present and absent
otherwise. -/
def postPerClaim (env : Env) (path : String) (body : Option Json) :
    Except FetchError Response × Trace :=
  fetchWithAuth env (apiUrl path) ⟨some "POST", jsonCT, body.map stringify⟩

/-- The claim's reading of the PUT helper, stated from the spec's words. -/
def putPerClaim (env : Env) (path : String) (body : Option Json) :
    Except FetchError Response × Trace :=
  fetchWithAuth env (apiUrl path) ⟨some "PUT", jsonCT, body.map stringify⟩

/-- An empty options record, used to evaluate the theorems on concrete
inputs. -/
def opts0 : ReqOptions := ⟨none, Headers.empty, none⟩

/-- Concrete environment: session available, every request answered with
status 500. -/
def envOk : Env :=
  ⟨⟨false, some ⟨"tokA"⟩⟩, fun _ _ => .ok ⟨500⟩, ⟨false, none⟩, .ok ()⟩

/-- Concrete environment: first attempt answered 401, refresh succeeds
with a new token, retry answered 200. -/
def env401ok : Env :=
  ⟨⟨false, some ⟨"tokA"⟩⟩, fun i _ => .ok ⟨if i = 0 then 401 else 200⟩,
    ⟨false, some ⟨"tokB"⟩⟩, .ok ()⟩

/-- Concrete environment: first attempt answered 401, refresh yields no
session, sign-out succeeds. -/
def env401fail : Env :=
  ⟨⟨false, some ⟨"tokA"⟩⟩, fun _ _ => .ok ⟨401⟩, ⟨false, none⟩, .ok ()⟩

/-- Concrete environment: the transport rejects every request. -/
def envNet : Env :=
  ⟨⟨false, some ⟨"tokA"⟩⟩, fun _ _ => .error (), ⟨false, none⟩, .ok ()⟩

/-- Concrete environment: `getSession()` itself fails. -/
def envSessErr : Env :=
  ⟨⟨true, none⟩, fun _ _ => .ok ⟨200⟩, ⟨false, none⟩, .ok ()⟩

/-- Concrete environment: `getSession()` succeeds but returns no
session. -/
def envNoTok : Env :=
  ⟨⟨false, none⟩, fun _ _ => .ok ⟨200⟩, ⟨false, none⟩, .ok ()⟩

/-- Concrete environment whose transport answer depends on whether the
request carries a body: 200 without a body, 500 with one. -/
def envBody : Env :=
  ⟨⟨false, some ⟨"tok"⟩⟩, fun _ c => .ok ⟨if c.body = none then 200 else 500⟩,
    ⟨false, none⟩, .ok ()⟩

lemma buildHeaders_auth (h : Headers) (t : String) :
    buildHeaders h t "Authorization" = some ("Bearer " ++ t) := by
  simp [buildHeaders, Headers.set]

lemma buildHeaders_ct (h : Headers) (t : String) :
    buildHeaders h t "Content-Type" = some "application/json" := by
  simp [buildHeaders, Headers.set]

lemma buildHeaders_other (h : Headers) (t k : String)
    (hk1 : k ≠ "Authorization") (hk2 : k ≠ "Content-Type") :
    buildHeaders h t k = h k := by
  simp [buildHeaders, Headers.set, hk1, hk2]

/-- Claim C7: when `getSession()` itself fails, `fetchWithAuth` fails with
`sessionUnavailable` and performs no network call, no refresh and no
sign-out. -/
theorem crowC7 (env : Env) (url : String) (options : ReqOptions)
    (hg : env.getSession.error = true) :
    fetchWithAuth env url options = (.error .sessionUnavailable, ⟨[], 0, 0⟩) := by
  simp [fetchWithAuth, hg]

theorem crowC7_witness :
    envSessErr.getSession.error = true ∧
    fetchWithAuth envSessErr "u" opts0 = (.error .sessionUnavailable, ⟨[], 0, 0⟩) :=
  ⟨rfl, crowC7 envSessErr "u" opts0 rfl⟩

/-- Claim C8: when `getSession()` succeeds but the session carries no
usable access token (no session at all, or an empty token, the two falsy
cases of `!accessToken`), `fetchWithAuth` fails with `noCredential` and
performs no network call, no refresh and no sign-out. -/
theorem crowC8 (env : Env) (url : String) (options : ReqOptions)
    (hge : env.getSession.error = false)
    (hns : env.getSession.session = none ∨ env.getSession.session = some ⟨""⟩) :
    fetchWithAuth env url options = (.error .noCredential, ⟨[], 0, 0⟩) := by
  rcases hns with h | h <;> simp [fetchWithAuth, hge, h]

theorem crowC8_witness :
    envNoTok.getSession.error = false ∧
    envNoTok.getSession.session = none ∧
    fetchWithAuth envNoTok "u" opts0 = (.error .noCredential, ⟨[], 0, 0⟩) :=
  ⟨rfl, rfl, crowC8 envNoTok "u" opts0 rfl (Or.inl rfl)⟩

/-- Claim C3: when the session holds a credential and the first attempt
returns any status other than 401 (4xx and 5xx included), `fetchWithAuth`
performs exactly that one network call and returns the response unchanged,
with no refresh and no sign-out. -/
theorem crowC3 (env : Env) (url : String) (options : ReqOptions)
    (s : Session) (r1 : Response)
    (hg : env.getSession = ⟨false, some s⟩)
    (ht : s.access_token ≠ "")
    (h1 : env.fetch 0 (mkCall url options s.access_token) = .ok r1)
    (h401 : r1.status ≠ 401) :
    fetchWithAuth env url options =
      (.ok r1, ⟨[mkCall url options s.access_token], 0, 0⟩) := by
  simp [fetchWithAuth, hg, ht, h1, h401]

theorem crowC3_witness :
    envOk.getSession = ⟨false, some ⟨"tokA"⟩⟩ ∧
    (Session.mk "tokA").access_token ≠ "" ∧
    envOk.fetch 0 (mkCall "u" opts0 "tokA") = .ok ⟨500⟩ ∧
    (Response.mk 500).status ≠ 401 ∧
    fetchWithAuth envOk "u" opts0 = (.ok ⟨500⟩, ⟨[mkCall "u" opts0 "tokA"], 0, 0⟩) :=
  ⟨rfl, by decide, rfl, by decide,
    crowC3 envOk "u" opts0 ⟨"tokA"⟩ ⟨500⟩ rfl (by decide) rfl (by decide)⟩

/-- Claim C6: when the transport itself rejects the first attempt,
`fetchWithAuth` propagates the failure as `networkError` at once: the one
attempted call is the only network call, and neither a refresh nor a
sign-out happens. -/
theorem crowC6 (env : Env) (url : String) (options : ReqOptions)
    (s : Session)
    (hg : env.getSession = ⟨false, some s⟩)
    (ht : s.access_token ≠ "")
    (h1 : env.fetch 0 (mkCall url options s.access_token) = .error ()) :
    fetchWithAuth env url options =
      (.error .networkError, ⟨[mkCall url options s.access_token], 0, 0⟩) := by
  simp [fetchWithAuth, hg, ht, h1]

theorem crowC6_witness :
    envNet.getSession = ⟨false, some ⟨"tokA"⟩⟩ ∧
    (Session.mk "tokA").access_token ≠ "" ∧
    envNet.fetch 0 (mkCall "u" opts0 "tokA") = .error () ∧
    fetchWithAuth envNet "u" opts0 =
      (.error .networkError, ⟨[mkCall "u" opts0 "tokA"], 0, 0⟩) :=
  ⟨rfl, by decide, rfl, crowC6 envNet "u" opts0 ⟨"tokA"⟩ rfl (by decide) rfl⟩

/-- Claim C1: when the first attempt comes back 401 and the refresh
succeeds with a session, `fetchWithAuth` performs exactly two network
calls, the second carrying `Authorization: Bearer <refreshed token>`, and
returns the second response whatever its status (401 again included),
with no further retry. -/
theorem crowC1 (env : Env) (url : String) (options : ReqOptions)
    (s s2 : Session) (r1 r2 : Response)
    (hg : env.getSession = ⟨false, some s⟩)
    (ht : s.access_token ≠ "")
    (h1 : env.fetch 0 (mkCall url options s.access_token) = .ok r1)
    (h401 : r1.status = 401)
    (hr : env.refreshSession = ⟨false, some s2⟩)
    (h2 : env.fetch 1 (mkCall url options s2.access_token) = .ok r2) :
    fetchWithAuth env url options =
      (.ok r2,
        ⟨[mkCall url options s.access_token, mkCall url options s2.access_token], 1, 0⟩) ∧
    (mkCall url options s2.access_token).headers "Authorization" =
      some ("Bearer " ++ s2.access_token) := by
  refine ⟨?_, buildHeaders_auth options.headers s2.access_token⟩
  simp [fetchWithAuth, hg, ht, h1, h401, hr, h2]

theorem crowC1_witness :
    env401ok.getSession = ⟨false, some ⟨"tokA"⟩⟩ ∧
    (Session.mk "tokA").access_token ≠ "" ∧
    env401ok.fetch 0 (mkCall "u" opts0 "tokA") = .ok ⟨401⟩ ∧
    (Response.mk 401).status = 401 ∧
    env401ok.refreshSession = ⟨false, some ⟨"tokB"⟩⟩ ∧
    env401ok.fetch 1 (mkCall "u" opts0 "tokB") = .ok ⟨200⟩ ∧
    (fetchWithAuth env401ok "u" opts0 =
        (.ok ⟨200⟩, ⟨[mkCall "u" opts0 "tokA", mkCall "u" opts0 "tokB"], 1, 0⟩) ∧
      (mkCall "u" opts0 "tokB").headers "Authorization" = some ("Bearer " ++ "tokB")) :=
  ⟨rfl, by decide, rfl, rfl, rfl, rfl,
    crowC1 env401ok "u" opts0 ⟨"tokA"⟩ ⟨"tokB"⟩ ⟨401⟩ ⟨200⟩ rfl (by decide) rfl rfl rfl rfl⟩

/-- Claim C2: when the first attempt comes back 401 and the refresh fails
or yields no session, `fetchWithAuth` performs exactly one network call,
invokes `signOut()` exactly once, and fails with `sessionExpired`. -/
theorem crowC2 (env : Env) (url : String) (options : ReqOptions)
    (s : Session) (r1 : Response)
    (hg : env.getSession = ⟨false, some s⟩)
    (ht : s.access_token ≠ "")
    (h1 : env.fetch 0 (mkCall url options s.access_token) = .ok r1)
    (h401 : r1.status = 401)
    (hr : env.refreshSession.error = true ∨ env.refreshSession.session = none)
    (hso : env.signOut = .ok ()) :
    fetchWithAuth env url options =
      (.error .sessionExpired, ⟨[mkCall url options s.access_token], 1, 1⟩) := by
  rcases hr with h | h
  · simp [fetchWithAuth, hg, ht, h1, h401, h, onRefreshFailure, hso]
  · cases he : env.refreshSession.error
    · simp [fetchWithAuth, hg, ht, h1, h401, he, h, onRefreshFailure, hso]
    · simp [fetchWithAuth, hg, ht, h1, h401, he, onRefreshFailure, hso]

theorem crowC2_witness :
    env401fail.getSession = ⟨false, some ⟨"tokA"⟩⟩ ∧
    (Session.mk "tokA").access_token ≠ "" ∧
    env401fail.fetch 0 (mkCall "u" opts0 "tokA") = .ok ⟨401⟩ ∧
    (Response.mk 401).status = 401 ∧
    env401fail.refreshSession.session = none ∧
    env401fail.signOut = .ok () ∧
    fetchWithAuth env401fail "u" opts0 =
      (.error .sessionExpired, ⟨[mkCall "u" opts0 "tokA"], 1, 1⟩) :=
  ⟨rfl, by decide, rfl, rfl, rfl, rfl,
    crowC2 env401fail "u" opts0 ⟨"tokA"⟩ ⟨401⟩ rfl (by decide) rfl rfl (Or.inr rfl) rfl⟩

/-- Claim C10: on the refresh-failure path the sign-out is awaited before
the failure is raised: `signOut()` runs exactly once, the outcome is
`sessionExpired` exactly when `signOut()` completed without error, and a
rejection of `signOut()` propagates to the caller in its place. -/
theorem crowC10 (env : Env) (url : String) (options : ReqOptions)
    (s : Session) (r1 : Response)
    (hg : env.getSession = ⟨false, some s⟩)
    (ht : s.access_token ≠ "")
    (h1 : env.fetch 0 (mkCall url options s.access_token) = .ok r1)
    (h401 : r1.status = 401)
    (hr : env.refreshSession.error = true ∨ env.refreshSession.session = none) :
    (fetchWithAuth env url options).2.signOutCalls = 1 ∧
    (fetchWithAuth env url options).1 =
      (match env.signOut with
        | .error _ => .error .providerError
        | .ok _ => .error .sessionExpired) := by
  have heval : fetchWithAuth env url options =
      onRefreshFailure env (mkCall url options s.access_token) := by
    rcases hr with h | h
    · simp [fetchWithAuth, hg, ht, h1, h401, h]
    · cases he : env.refreshSession.error
      · simp [fetchWithAuth, hg, ht, h1, h401, he, h]
      · simp [fetchWithAuth, hg, ht, h1, h401, he]
  rw [heval]
  cases hso : env.signOut <;> simp [onRefreshFailure, hso]

theorem crowC10_witness :
    env401fail.getSession = ⟨false, some ⟨"tokA"⟩⟩ ∧
    (Session.mk "tokA").access_token ≠ "" ∧
    env401fail.fetch 0 (mkCall "u" opts0 "tokA") = .ok ⟨401⟩ ∧
    (Response.mk 401).status = 401 ∧
    env401fail.refreshSession.session = none ∧
    ((fetchWithAuth env401fail "u" opts0).2.signOutCalls = 1 ∧
      (fetchWithAuth env401fail "u" opts0).1 =
        (match env401fail.signOut with
          | .error _ => .error .providerError
          | .ok _ => .error .sessionExpired)) :=
  ⟨rfl, by decide, rfl, rfl, rfl,
    crowC10 env401fail "u" opts0 ⟨"tokA"⟩ ⟨401⟩ rfl (by decide) rfl rfl (Or.inr rfl)⟩

/-- Claim C4: on every environment whatsoever, one logical call issues at
most two network requests, asks for at most one refresh and at most one
sign-out; `fetchWithAuth` is a total function, so it can never loop on
repeated 401s. -/
theorem crowC4 (env : Env) (url : String) (options : ReqOptions) :
    (fetchWithAuth env url options).2.fetchCalls.length ≤ 2 ∧
    (fetchWithAuth env url options).2.refreshCalls ≤ 1 ∧
    (fetchWithAuth env url options).2.signOutCalls ≤ 1 := by
  refine ⟨?_, ?_, ?_⟩ <;>
    (unfold fetchWithAuth onRefreshFailure; repeat' split) <;> simp

/-- Claim C5: every network call the wrapper issues, first attempt and
retry alike, carries the caller's headers merged with the injected pair:
`Content-Type` is `application/json`, `Authorization` is `Bearer <token>`
for some token, the injected keys override any caller entry of the same
name, and every other key reaches the wire exactly as the caller set
it. -/
theorem crowC5 (env : Env) (url : String) (options : ReqOptions) (c : FetchCall)
    (hc : c ∈ (fetchWithAuth env url options).2.fetchCalls) :
    (∃ t, c.headers = buildHeaders options.headers t) ∧
    c.headers "Content-Type" = some "application/json" ∧
    (∃ t, c.headers "Authorization" = some ("Bearer " ++ t)) ∧
    (∀ k, k ≠ "Authorization" → k ≠ "Content-Type" → c.headers k = options.headers k) := by
  have hmk : ∃ t, c = mkCall url options t := by
    unfold fetchWithAuth onRefreshFailure at hc
    repeat' split at hc
    all_goals
      first
      | exact absurd hc (List.not_mem_nil c)
      | exact ⟨_, List.mem_singleton.mp hc⟩
      | (rcases List.mem_cons.mp hc with h | h
         · exact ⟨_, h⟩
         · exact ⟨_, List.mem_singleton.mp h⟩)
  obtain ⟨t, rfl⟩ := hmk
  exact ⟨⟨t, rfl⟩, buildHeaders_ct options.headers t, ⟨t, buildHeaders_auth options.headers t⟩,
    fun k hk1 hk2 => buildHeaders_other options.headers t k hk1 hk2⟩

theorem crowC5_witness :
    (mkCall "u" opts0 "tokB") ∈ (fetchWithAuth env401ok "u" opts0).2.fetchCalls ∧
    ((∃ t, (mkCall "u" opts0 "tokB").headers = buildHeaders opts0.headers t) ∧
      (mkCall "u" opts0 "tokB").headers "Content-Type" = some "application/json" ∧
      (∃ t, (mkCall "u" opts0 "tokB").headers "Authorization" = some ("Bearer " ++ t)) ∧
      (∀ k, k ≠ "Authorization" → k ≠ "Content-Type" →
        (mkCall "u" opts0 "tokB").headers k = opts0.headers k)) := by
  have he : (fetchWithAuth env401ok "u" opts0).2.fetchCalls =
      [mkCall "u" opts0 "tokA", mkCall "u" opts0 "tokB"] := rfl
  have hm : (mkCall "u" opts0 "tokB") ∈ (fetchWithAuth env401ok "u" opts0).2.fetchCalls := by
    rw [he]; exact List.mem_cons_of_mem _ (List.mem_singleton.mpr rfl)
  exact ⟨hm, crowC5 env401ok "u" opts0 (mkCall "u" opts0 "tokB") hm⟩

/-- Claim C9, counterexample to the claim as stated: with the body
`false`, a present JSON value, `postWithAuth` sends no body at all
(`body ? JSON.stringify(body) : undefined` is falsy on it), while the
claim's reading sends the encoded body `"false"`; an environment whose
answer depends on the presence of a body separates the two. -/
theorem crowC9_counterexample :
    (postWithAuth envBody "/p" (some (Json.bool false))).1 = .ok ⟨200⟩ ∧
    (postPerClaim envBody "/p" (some (Json.bool false))).1 = .ok ⟨500⟩ ∧
    (postWithAuth envBody "/p" (some (Json.bool false))).1 ≠
      (postPerClaim envBody "/p" (some (Json.bool false))).1 := by
  have h1 : (postWithAuth envBody "/p" (some (Json.bool false))).1 =
      Except.ok (Response.mk 200) := rfl
  have h2 : (postPerClaim envBody "/p" (some (Json.bool false))).1 =
      Except.ok (Response.mk 500) := rfl
  refine ⟨h1, h2, ?_⟩
  rw [h1, h2]
  simp

/-- Claim C9, amended: each convenience helper equals a single
`fetchWithAuth` call with its method fixed; for POST and PUT the optional
body is JSON-encoded exactly when it is present and truthy in the
JavaScript sense (a present `null`, `false`, `0` or `""` is dropped like
an absent body), and omitted otherwise; GET and DELETE pass no body.  The
helpers add no logic or failure semantics of their own. -/
theorem crowC9 (env : Env) (path : String) (body : Option Json) :
    postWithAuth env path body =
      fetchWithAuth env (apiUrl path)
        ⟨some "POST", jsonCT, body.bind fun b => if jsTruthy b then some (stringify b) else none⟩ ∧
    putWithAuth env path body =
      fetchWithAuth env (apiUrl path)
        ⟨some "PUT", jsonCT, body.bind fun b => if jsTruthy b then some (stringify b) else none⟩ ∧
    getWithAuth env path =
      fetchWithAuth env (apiUrl path) ⟨some "GET", Headers.empty, none⟩ ∧
    deleteWithAuth env path =
      fetchWithAuth env (apiUrl path) ⟨some "DELETE", Headers.empty, none⟩ := by
  refine ⟨?_, ?_, rfl, rfl⟩ <;> cases body <;> rfl

end Crow
